import Mathlib

/-!
Shallow embedding of the music-playback core in
`src/SDL_mixer/music.c` (libretro-wolfenstein3d excerpt of SDL_mixer).

The embedding follows the C source with `WAV_MUSIC` compiled in, which is
the one concrete decoder of this excerpt (the spec, §2: "only WAV shown
concretely in this excerpt; others are stubs to extend").  The external
WAV decoder collaborators (`WAVStream_Start`, `WAVStream_Stop`,
`WAVStream_SetVolume`, `WAVStream_Active`) are modelled as two fields of
the session state: a boolean `wav_active` (set by start, cleared by stop,
queried by the is-active dispatch) and the last applied `wav_volume`.
-/

/-- `Mix_MusicType` from SDL_mixer.h, restricted to the tags used by
`music.c`. -/
inductive Mix_MusicType where
  | MUS_NONE
  | MUS_WAV
  | MUS_MOD
  | MUS_MID
  | MUS_OGG
  | MUS_MP3
  | MUS_FLAC
deriving DecidableEq, Repr

/-- `Mix_Fading` from SDL_mixer.h. -/
inductive Mix_Fading where
  | MIX_NO_FADING
  | MIX_FADING_OUT
  | MIX_FADING_IN
deriving DecidableEq, Repr

open Mix_MusicType Mix_Fading

/-! ## Format detection (music.c lines 231-300) -/

/-- An `SDL_RWops` seekable byte source: a byte sequence plus a read
position.  Bytes are naturals below 256. -/
structure SDL_RWops where
  data : List Nat
  pos : Nat
deriving DecidableEq, Repr

/-- `SDL_RWtell`: current read position. -/
def SDL_RWtell (src : SDL_RWops) : Nat := src.pos

/-- `SDL_RWread(src, buf, 1, n)`: read up to `n` bytes from the current
position, advancing the position by the number of bytes actually read.
Returns the bytes read and the new source state. -/
def SDL_RWread (src : SDL_RWops) (n : Nat) : List Nat × SDL_RWops :=
  let got := (src.data.drop src.pos).take n
  (got, { src with pos := src.pos + got.length })

/-- `SDL_RWseek(src, offset, RW_SEEK_SET)`: set the absolute position. -/
def SDL_RWseek_set (src : SDL_RWops) (offset : Nat) : SDL_RWops :=
  { src with pos := offset }

/-- `detect_mp3` (music.c lines 231-247): `magic` is the 4-byte buffer.
Returns true on an "ID3" prefix, or when the SMPEG frame-sync heuristic
accepts the first bytes.  The C rejects when any of the listed conditions
holds, and accepts otherwise. -/
def detect_mp3 (magic : List Nat) : Bool :=
  -- strncmp(magic, "ID3", 3) == 0  compares the first three bytes
  if magic.take 3 = [0x49, 0x44, 0x33] then true
  else
    let m0 := magic.getD 0 0
    let m1 := magic.getD 1 0
    let m2 := magic.getD 2 0
    if Nat.land m0 0xff ≠ 0xff ∨      -- no sync bits
       Nat.land m1 0xf0 ≠ 0xf0 ∨
       Nat.land m2 0xf0 = 0x00 ∨      -- bitrate is 0
       Nat.land m2 0xf0 = 0xf0 ∨      -- bitrate is 15
       Nat.land m2 0x0c = 0x0c ∨      -- frequency is 3
       Nat.land m1 0x06 = 0x00 then   -- layer is 4
      false
    else
      true

/-- The byte strings compared by `detect_music_type`.  The C null-terminates
the read buffers and uses `strcmp`; since the reference strings contain no
NUL and fill the compared width, `strcmp` equality is exactly bytewise
equality of the buffer with these bytes. -/
def strRIFF : List Nat := [0x52, 0x49, 0x46, 0x46]

/-- "WAVE" as bytes. -/
def strWAVE : List Nat := [0x57, 0x41, 0x56, 0x45]

/-- "FORM" as bytes. -/
def strFORM : List Nat := [0x46, 0x4f, 0x52, 0x4d]

/-- "OggS" as bytes. -/
def strOggS : List Nat := [0x4f, 0x67, 0x67, 0x53]

/-- "fLaC" as bytes. -/
def strfLaC : List Nat := [0x66, 0x4c, 0x61, 0x43]

/-- "MThd" as bytes. -/
def strMThd : List Nat := [0x4d, 0x54, 0x68, 0x64]

/-- The classification chain of `detect_music_type` (music.c lines 268-299)
applied to the 4-byte `magic` and 8-byte `moremagic` buffers.
`moremagic.drop 4` is `moremagic+4`, i.e. stream bytes 8..11. -/
def detect_classify (magic moremagic : List Nat) : Mix_MusicType :=
  if (magic = strRIFF ∧ moremagic.drop 4 = strWAVE) ∨ magic = strFORM then
    MUS_WAV
  else if magic = strOggS then MUS_OGG
  else if magic = strfLaC then MUS_FLAC
  else if magic = strMThd then MUS_MID
  else if detect_mp3 magic then MUS_MP3
  else MUS_MOD   -- unconditional catch-all: assume MOD format

/-- `detect_music_type` (music.c lines 254-300).  Reads 4 bytes then 8
bytes; on a short read it sets an error and returns `MUS_NONE` without
seeking back (the `return` precedes the `SDL_RWseek`); otherwise it
restores the starting position and classifies.  Returns the type and the
source in its final state. -/
def detect_music_type (src : SDL_RWops) : Mix_MusicType × SDL_RWops :=
  let start := SDL_RWtell src
  let r1 := SDL_RWread src 4
  if r1.1.length ≠ 4 then
    (MUS_NONE, r1.2)           -- "Could not read from RWops" error, no seek back
  else
    let r2 := SDL_RWread r1.2 8
    if r2.1.length ≠ 8 then
      (MUS_NONE, r2.2)         -- "Could not read from RWops" error, no seek back
    else
      let src2 := SDL_RWseek_set r2.2 start
      (detect_classify r1.1 r2.1, src2)

/-! ## Decoder registry (music.c lines 62-78) -/

/-- `Mix_GetMusicDecoder` (music.c lines 72-78): bounds-checked index into
the registered decoder-name array.  `music_decoders` holds `num_decoders`
entries, modelled as a list; the C returns `NULL` out of range, modelled
as `none`. -/
def Mix_GetMusicDecoder (music_decoders : List String) (index : Int) : Option String :=
  if index < 0 ∨ index ≥ (music_decoders.length : Int) then
    none
  else
    music_decoders.get? index.toNat

/-! ## Playback state machine (music.c lines 38-59, 476-796) -/

/-- `SDL_MIX_MAXVOLUME` from the SDL headers (128).  `music.c` clamps the
master volume to this value. -/
def SDL_MIX_MAXVOLUME : Int := 128

/-- `struct _Mix_Music` (music.c lines 45-56).  The decoder payload union
is not represented: with `WAV_MUSIC` the WAV stream state lives in the
session fields `wav_active` / `wav_volume` (the external collaborators
operate on process-wide state in wavestream.c). -/
structure Mix_Music where
  type : Mix_MusicType
  fading : Mix_Fading
  fade_step : Int
  fade_steps : Int
deriving DecidableEq, Repr

/-- The module-level playback session state of `music.c`:
`music_active`, `music_loops`, `music_playing`, `music_volume`,
`ms_per_step`, the finished-notification hook, plus the modelled external
WAV-stream state and the process-wide last-error string.  `music_playing`
holds by value the struct the C pointer points to; `hooks_fired` counts
invocations of `music_finished_hook`. -/
structure MusicState where
  music_active : Bool
  music_loops : Int
  music_playing : Option Mix_Music
  music_volume : Int
  ms_per_step : Int
  music_finished_hook : Bool
  hooks_fired : Nat
  wav_active : Bool
  wav_volume : Int
  last_error : String
deriving DecidableEq, Repr

/-- `Mix_SetError`: store into the process-wide last-error slot. -/
def Mix_SetError (msg : String) (s : MusicState) : MusicState :=
  { s with last_error := msg }

/-- `music_internal_volume` (music.c lines 620-632): dispatch `set-volume`
on the format of the active track; WAV calls `WAVStream_SetVolume(volume)`,
unknown formats are a no-op.  Every caller ensures `music_playing` is set
(the C dereferences it unconditionally). -/
def music_internal_volume (volume : Int) (s : MusicState) : MusicState :=
  match s.music_playing with
  | some m =>
    match m.type with
    | MUS_WAV => { s with wav_volume := volume }
    | _ => s
  | none => s

/-- `music_internal_initialize_volume` (music.c lines 610-617): volume 0
when fading in, else the master volume. -/
def music_internal_initialize_volume (s : MusicState) : MusicState :=
  match s.music_playing with
  | some m =>
    if m.fading = MIX_FADING_IN then music_internal_volume 0 s
    else music_internal_volume s.music_volume s
  | none => s

/-- `music_internal_position` (music.c lines 578-589): the switch has only
the default branch in this excerpt (no backend implements seeking), so it
returns -1 for every format.  The C reads `music_playing->type`; the track
is passed explicitly here. -/
def music_internal_position (position : Rat) (m : Mix_Music) : Int :=
  match m.type with
  | _ => -1

/-- `music_internal_playing` (music.c lines 761-784): false when nothing
is active; for WAV it queries `WAVStream_Active()`; every other format
reports not playing. -/
def music_internal_playing (s : MusicState) : Bool :=
  match s.music_playing with
  | none => false
  | some m =>
    match m.type with
    | MUS_WAV => s.wav_active
    | _ => false

/-- `music_internal_halt` (music.c lines 654-670): WAV dispatches
`WAVStream_Stop()` then clears the fade state on the struct and clears
`music_playing`; an unknown format hits the `default: return` and leaves
`music_playing` set.  Callers ensure `music_playing` is non-NULL. -/
def music_internal_halt (s : MusicState) : MusicState :=
  match s.music_playing with
  | some m =>
    match m.type with
    | MUS_WAV => { s with wav_active := false, music_playing := none }
    | _ => s
  | none => s

/-- `music_internal_play` (music.c lines 478-524): halt any active track,
install the new one, initialise volume (unless MOD), dispatch `start`
(WAV succeeds; any other format sets an error and fails), then seek.  A
positive position whose seek fails sets "Position not implemented for
music type" and fails the call; position `<= 0` calls
`music_internal_position(0.0)` and ignores the result.  On failure
`music_playing` is cleared.  Returns `(retval, state)`. -/
def music_internal_play (music : Mix_Music) (position : Rat) (s : MusicState) :
    Int × MusicState :=
  let s := if s.music_playing.isSome then music_internal_halt s else s
  let s := { s with music_playing := some music }
  let s := if music.type ≠ MUS_MOD then music_internal_initialize_volume s else s
  let r :=
    match music.type with
    | MUS_WAV => ((0 : Int), { s with wav_active := true })  -- WAVStream_Start
    | _ => (-1, Mix_SetError "Cant play unknown music type" s)
  let r :=
    if r.1 = 0 then
      if position > 0 then
        if music_internal_position position music < 0 then
          (-1, Mix_SetError "Position not implemented for music type" r.2)
        else r
      else r    -- music_internal_position 0.0: result ignored, no state change
    else r
  if r.1 < 0 then (r.1, { r.2 with music_playing := none })
  else r

/-- The condition of the wait loop in `Mix_FadeInMusicPos` (music.c lines
552-556): an active track currently fading out.  The C blocks, polling
under the lock, while this holds; the embedding models the operation on
the states where the loop body does not run. -/
def fadeOutInProgress (s : MusicState) : Bool :=
  match s.music_playing with
  | some m => m.fading = MIX_FADING_OUT
  | none => false

/-- `Mix_FadeInMusicPos` (music.c lines 525-567): requires the device open
(`ms_per_step != 0`) and a non-NULL track; sets the fade fields of the track
(`FADING_IN` iff `ms != 0`, `fade_steps = ms / ms_per_step` with C
truncating division), waits out any fade-out in progress (see
`fadeOutInProgress`), sets `music_active`, normalizes `loops == 1` to `0`,
stores the loop count, and plays. -/
def Mix_FadeInMusicPos (music : Option Mix_Music) (loops : Int) (ms : Int)
    (position : Rat) (s : MusicState) : Int × MusicState :=
  if s.ms_per_step = 0 then
    (-1, Mix_SetError "Audio device hasnt been opened" s)
  else
    match music with
    | none => (-1, Mix_SetError "music parameter was NULL" s)
    | some m =>
      let m := { m with
        fading := if ms ≠ 0 then MIX_FADING_IN else MIX_NO_FADING,
        fade_step := 0,
        fade_steps := Int.tdiv ms s.ms_per_step }
      let s := { s with music_active := true }
      let loops := if loops = 1 then 0 else loops
      let s := { s with music_loops := loops }
      music_internal_play m position s

/-- `Mix_FadeInMusic` (music.c lines 568-571). -/
def Mix_FadeInMusic (music : Option Mix_Music) (loops : Int) (ms : Int)
    (s : MusicState) : Int × MusicState :=
  Mix_FadeInMusicPos music loops ms 0 s

/-- `Mix_PlayMusic` (music.c lines 572-575). -/
def Mix_PlayMusic (music : Option Mix_Music) (loops : Int) (s : MusicState) :
    Int × MusicState :=
  Mix_FadeInMusicPos music loops 0 0 s

/-- `Mix_VolumeMusic` (music.c lines 633-651): negative input returns the
previous volume without mutating; otherwise clamp to `SDL_MIX_MAXVOLUME`,
store, and re-apply through the dispatch when a track is active. -/
def Mix_VolumeMusic (volume : Int) (s : MusicState) : Int × MusicState :=
  let prev_volume := s.music_volume
  if volume < 0 then
    (prev_volume, s)
  else
    let volume := if volume > SDL_MIX_MAXVOLUME then SDL_MIX_MAXVOLUME else volume
    let s := { s with music_volume := volume }
    let s := if s.music_playing.isSome then music_internal_volume s.music_volume s else s
    (prev_volume, s)

/-- `Mix_HaltMusic` (music.c lines 671-683): when a track is active, halt
it and invoke the finished-notification hook if one is registered.
Always returns 0. -/
def Mix_HaltMusic (s : MusicState) : Int × MusicState :=
  match s.music_playing with
  | some _ =>
    let s := music_internal_halt s
    let s := if s.music_finished_hook then { s with hooks_fired := s.hooks_fired + 1 } else s
    (0, s)
  | none => (0, s)

/-- `Mix_FadeOutMusic` (music.c lines 686-724): device must be open
(else return 0); `ms <= 0` degrades to an immediate `Mix_HaltMusic` and
returns 1; otherwise, with a track active, computes
`fade_steps = ceil(ms / ms_per_step)` via `(ms + ms_per_step - 1) /
ms_per_step`, starts from step 0 when no fade is in progress, else
rescales with C truncating division `(step * fade_steps) /
old_fade_steps` where `step` is `fade_step` when fading out and
`old_fade_steps - fade_step + 1` when fading in; sets `MIX_FADING_OUT`
and the new step count and returns 1. -/
def Mix_FadeOutMusic (ms : Int) (s : MusicState) : Int × MusicState :=
  if s.ms_per_step = 0 then
    (0, Mix_SetError "Audio device hasnt been opened" s)
  else if ms ≤ 0 then
    (1, (Mix_HaltMusic s).2)
  else
    match s.music_playing with
    | some m =>
      let fade_steps := Int.tdiv (ms + s.ms_per_step - 1) s.ms_per_step
      let new_step : Int :=
        if m.fading = MIX_NO_FADING then 0
        else
          let old_fade_steps := m.fade_steps
          let step := if m.fading = MIX_FADING_OUT then m.fade_step
                      else old_fade_steps - m.fade_step + 1
          Int.tdiv (step * fade_steps) old_fade_steps
      let m := { m with fade_step := new_step, fading := MIX_FADING_OUT,
                        fade_steps := fade_steps }
      (1, { s with music_playing := some m })
    | none => (0, s)

/-- `Mix_PlayingMusic` (music.c lines 785-796): a track is set AND
(`music_loops` nonzero OR the dispatch is-active check passes).  The C
returns a nonzero int, modelled as `Bool`. -/
def Mix_PlayingMusic (s : MusicState) : Bool :=
  match s.music_playing with
  | some _ => s.music_loops ≠ 0 || music_internal_playing s
  | none => false

/-- `music_halt_or_loop` (music.c lines 112-140): when the dispatch
reports the active track not playing: with `music_loops` nonzero,
decrement a positive count, snapshot the fade state, restart via
`music_internal_play(music_playing, 0.0)` and restore the snapshot;
with no loops pending, halt and fire the finished-notification.
Returns `none` where the C dereferences a NULL `music_playing` (reading
`music_playing->fading` with no active track, or writing it after a
failed restart cleared the pointer).  The argument of the restart aliases
`music_playing`: the halt inside `music_internal_play` writes
`MIX_NO_FADING` into that same struct beforehand (only the WAV halt
branch performs the write). -/
def music_halt_or_loop (s : MusicState) : Option (Int × MusicState) :=
  if music_internal_playing s then some (1, s)
  else if s.music_loops ≠ 0 then
    match s.music_playing with
    | none => none
    | some m =>
      let s := if s.music_loops > 0 then { s with music_loops := s.music_loops - 1 } else s
      let current_fade := m.fading
      let maliased := if m.type = MUS_WAV then { m with fading := MIX_NO_FADING } else m
      let r := music_internal_play maliased 0 s
      match r.2.music_playing with
      | none => none
      | some m2 => some (1, { r.2 with music_playing := some { m2 with fading := current_fade } })
  else
    let s := music_internal_halt s
    let s := if s.music_finished_hook then { s with hooks_fired := s.hooks_fired + 1 } else s
    some (0, s)

/-! ## Concrete states used in the examples below -/

/-- A loaded WAV track with no fade configured. -/
def wavTrack : Mix_Music :=
  { type := MUS_WAV, fading := MIX_NO_FADING, fade_step := 0, fade_steps := 0 }

/-- Device open (`ms_per_step = 12`), nothing playing. -/
def openIdleState : MusicState :=
  { music_active := true, music_loops := 0, music_playing := none,
    music_volume := 128, ms_per_step := 12, music_finished_hook := false,
    hooks_fired := 0, wav_active := false, wav_volume := 128, last_error := "" }

/-- Device open, a WAV track playing, finished-notification registered. -/
def sampleState : MusicState :=
  { openIdleState with
    music_playing := some wavTrack, wav_active := true,
    music_finished_hook := true }

/-- Device open (`ms_per_step = 10`), a WAV track mid fade-out:
`fade_step = 1` of `fade_steps = 2`. -/
def fadingOutState : MusicState :=
  { openIdleState with
    music_playing := some { type := MUS_WAV, fading := MIX_FADING_OUT,
                            fade_step := 1, fade_steps := 2 },
    ms_per_step := 10, wav_active := true }

/-- A WAV track at natural end (`wav_active = false`) with two loops
pending and the notification hook registered. -/
def loopPendingState : MusicState :=
  { openIdleState with
    music_playing := some wavTrack, music_loops := 2,
    music_finished_hook := true }

/-- A WAV track at natural end with no loops pending and the notification
hook registered. -/
def loopDoneState : MusicState :=
  { openIdleState with
    music_playing := some wavTrack, music_loops := 0,
    music_finished_hook := true }

/-- The detection rules the spec claims, over a 12-byte prefix
`b0..b11`, written the way the specification states them: RIFF with WAVE
at offset 8, or FORM, gives WAV; OggS gives OGG; fLaC gives FLAC; MThd
gives MIDI; an ID3 prefix or the MPEG frame-sync heuristic (first byte
0xFF, top nibble of the second byte 0xF0, bitrate nibble not 0x0 or 0xF,
sample-rate bits not both set, layer bits not both zero) gives MP3; and
everything else is MOD. -/
def detect_spec_rules (b0 b1 b2 b3 b4 b5 b6 b7 b8 b9 b10 b11 : Nat) : Mix_MusicType :=
  if ([b0, b1, b2, b3] = strRIFF ∧ [b8, b9, b10, b11] = strWAVE) ∨
     [b0, b1, b2, b3] = strFORM then MUS_WAV
  else if [b0, b1, b2, b3] = strOggS then MUS_OGG
  else if [b0, b1, b2, b3] = strfLaC then MUS_FLAC
  else if [b0, b1, b2, b3] = strMThd then MUS_MID
  else if [b0, b1, b2] = [0x49, 0x44, 0x33] ∨
          (Nat.land b0 0xff = 0xff ∧ Nat.land b1 0xf0 = 0xf0 ∧
           Nat.land b2 0xf0 ≠ 0x00 ∧ Nat.land b2 0xf0 ≠ 0xf0 ∧
           Nat.land b2 0x0c ≠ 0x0c ∧ Nat.land b1 0x06 ≠ 0x00) then MUS_MP3
  else MUS_MOD

/-! ## Helper lemmas -/

/-- In this excerpt no backend implements seeking: the position dispatch
returns -1 for every format. -/
theorem music_internal_position_eq (position : Rat) (m : Mix_Music) :
    music_internal_position position m = -1 := by
  unfold music_internal_position
  cases m.type <;> rfl

/-- `detect_mp3` accepts exactly an ID3 prefix or a frame-sync-valid
header. -/
theorem detect_mp3_iff (b0 b1 b2 b3 : Nat) :
    detect_mp3 [b0, b1, b2, b3] = true ↔
      ([b0, b1, b2] = [0x49, 0x44, 0x33] ∨
       (Nat.land b0 0xff = 0xff ∧ Nat.land b1 0xf0 = 0xf0 ∧
        Nat.land b2 0xf0 ≠ 0x00 ∧ Nat.land b2 0xf0 ≠ 0xf0 ∧
        Nat.land b2 0x0c ≠ 0x0c ∧ Nat.land b1 0x06 ≠ 0x00)) := by
  unfold detect_mp3
  simp only [List.take, List.getD, List.get?]
  split_ifs with h1 h2
  · simp only [true_iff]
    exact Or.inl h1
  · simp only [Bool.false_eq_true, false_iff]
    rintro (h | ⟨hA, hB, hC0, hCF, hC12, hL0⟩)
    · exact h1 h
    · rcases h2 with h | h | h | h | h | h
      · exact h hA
      · exact h hB
      · exact hC0 h
      · exact hCF h
      · exact hC12 h
      · exact hL0 h
  · simp only [true_iff]
    push_neg at h2
    exact Or.inr h2

/-! ## Claim theorems -/

/-- C10: for every index that is negative or at least the number of
registered decoders, `Mix_GetMusicDecoder` returns `none` (NULL) rather
than reading out of range; for every in-range index it returns the
registered name. -/
theorem C10_getMusicDecoder_bounds (decoders : List String) (index : Int) :
    ((index < 0 ∨ (decoders.length : Int) ≤ index) →
       Mix_GetMusicDecoder decoders index = none) ∧
    (∀ h0 : 0 ≤ index, ∀ h1 : index.toNat < decoders.length,
       Mix_GetMusicDecoder decoders index = some (decoders.get ⟨index.toNat, h1⟩)) := by
  constructor
  · intro h
    unfold Mix_GetMusicDecoder
    rw [if_pos]
    rcases h with h | h
    · exact Or.inl h
    · exact Or.inr h
  · intro h0 h1
    unfold Mix_GetMusicDecoder
    rw [if_neg, List.get?_eq_get h1]
    push_neg
    refine ⟨h0, ?_⟩
    omega

/-- C10 witness: out-of-range indices -1 and 1 give `none` on a one-entry
registry, index 0 gives the registered name. -/
theorem C10_getMusicDecoder_bounds_witness :
    Mix_GetMusicDecoder ["WAVE"] (-1) = none ∧
    Mix_GetMusicDecoder ["WAVE"] 1 = none ∧
    Mix_GetMusicDecoder ["WAVE"] 0 = some "WAVE" := by
  refine ⟨?_, ?_, ?_⟩
  · exact (C10_getMusicDecoder_bounds ["WAVE"] (-1)).1 (Or.inl (by decide))
  · exact (C10_getMusicDecoder_bounds ["WAVE"] 1).1 (Or.inr (by decide))
  · exact (C10_getMusicDecoder_bounds ["WAVE"] 0).2 (by decide) (by decide)

/-- C6: `Mix_PlayingMusic` is true exactly when a track is active and
(the remaining loop count is nonzero or the dispatch is-active check
reports true); in particular a pending loop keeps it true the instant the
underlying stream reports exhausted. -/
theorem C6_isPlaying_iff (s : MusicState) :
    Mix_PlayingMusic s = true ↔
      s.music_playing.isSome ∧
        (s.music_loops ≠ 0 ∨ music_internal_playing s = true) := by
  unfold Mix_PlayingMusic
  cases h : s.music_playing with
  | none => simp
  | some m => simp [Bool.or_eq_true, decide_eq_true_eq]

/-- C4: over every 12-byte prefix, `detect_music_type` classifies by
exactly the ordered rules the specification states (`detect_spec_rules`):
RIFF+WAVE-at-offset-8 or FORM is WAV; OggS is OGG; fLaC is FLAC; MThd is
MIDI; ID3 prefix or the MPEG frame-sync heuristic is MP3; everything else
is MOD unconditionally. -/
theorem C4_detect_classification
    (b0 b1 b2 b3 b4 b5 b6 b7 b8 b9 b10 b11 : Nat) :
    (detect_music_type ⟨[b0, b1, b2, b3, b4, b5, b6, b7, b8, b9, b10, b11], 0⟩).1 =
      detect_spec_rules b0 b1 b2 b3 b4 b5 b6 b7 b8 b9 b10 b11 := by
  have hred :
      (detect_music_type ⟨[b0, b1, b2, b3, b4, b5, b6, b7, b8, b9, b10, b11], 0⟩).1 =
        detect_classify [b0, b1, b2, b3] [b4, b5, b6, b7, b8, b9, b10, b11] := rfl
  rw [hred]
  unfold detect_classify detect_spec_rules
  simp only [List.drop]
  split_ifs
  all_goals try rfl
  all_goals
    rename_i hmp3 hspec
    first
      | exact absurd ((detect_mp3_iff b0 b1 b2 b3).mp hmp3) hspec
      | exact absurd ((detect_mp3_iff b0 b1 b2 b3).mpr hspec) hmp3

/-- C2 counterexample: on a seekable one-byte source, `detect_music_type`
returns the short-read error with the read position left at 1, not
restored to the starting position 0 — detection does not leave the
position unchanged on the error path. -/
theorem C2_counterexample :
    (detect_music_type ⟨[0x4f], 0⟩).1 = MUS_NONE ∧
    (detect_music_type ⟨[0x4f], 0⟩).2.pos = 1 ∧
    ¬ (detect_music_type ⟨[0x4f], 0⟩).2.pos = SDL_RWtell ⟨[0x4f], 0⟩ := by
  decide

/-- C2 amended: when at least 12 bytes are readable, `detect_music_type`
restores the read position (round-trip); when fewer are readable it
returns the `MUS_NONE` error with the position advanced past all the
bytes it could read, not restored. -/
theorem C2_amended_position (src : SDL_RWops) :
    (12 ≤ src.data.length - src.pos →
       (detect_music_type src).2.pos = src.pos) ∧
    (src.data.length - src.pos < 12 →
       (detect_music_type src).1 = MUS_NONE ∧
       (detect_music_type src).2.pos = src.pos + (src.data.length - src.pos)) := by
  unfold detect_music_type SDL_RWread SDL_RWtell SDL_RWseek_set
  simp only [List.length_take, List.length_drop]
  constructor
  · intro h
    rw [if_neg (by omega)]
    rw [if_neg (by omega)]
  · intro h
    by_cases h4 : src.data.length - src.pos < 4
    · rw [if_pos (by omega)]
      constructor
      · rfl
      · simp only []
        omega
    · rw [if_neg (by omega)]
      rw [if_pos (by omega)]
      constructor
      · rfl
      · simp only []
        omega

/-- C2 amended witness: a 12-byte source round-trips to position 0; a
one-byte source errors with the position left at 1. -/
theorem C2_amended_position_witness :
    (detect_music_type ⟨[0x52, 0x49, 0x46, 0x46, 1, 2, 3, 4, 0x57, 0x41, 0x56, 0x45], 0⟩).2.pos = 0 ∧
    ((detect_music_type ⟨[0x4f], 0⟩).1 = MUS_NONE ∧
     (detect_music_type ⟨[0x4f], 0⟩).2.pos = 0 + (1 - 0)) := by
  constructor
  · exact (C2_amended_position ⟨[0x52, 0x49, 0x46, 0x46, 1, 2, 3, 4, 0x57, 0x41, 0x56, 0x45], 0⟩).1
      (by decide)
  · exact (C2_amended_position ⟨[0x4f], 0⟩).2 (by decide)

/-- The volume dispatch never changes which track is active. -/
theorem music_internal_volume_playing (volume : Int) (s : MusicState) :
    (music_internal_volume volume s).music_playing = s.music_playing := by
  obtain ⟨ma, ml, mp, mv, msps, mh, hf, wa, wv, le⟩ := s
  rcases mp with _ | ⟨ty2, f2, a2, b2⟩ <;> (try cases ty2) <;> rfl

/-- The volume dispatch never changes the loop counter. -/
theorem music_internal_volume_loops (volume : Int) (s : MusicState) :
    (music_internal_volume volume s).music_loops = s.music_loops := by
  obtain ⟨ma, ml, mp, mv, msps, mh, hf, wa, wv, le⟩ := s
  rcases mp with _ | ⟨ty2, f2, a2, b2⟩ <;> (try cases ty2) <;> rfl

/-- On a WAV track the volume dispatch stores the volume in the WAV
stream. -/
theorem music_internal_volume_wav (volume : Int) (s : MusicState) (m : Mix_Music)
    (hp : s.music_playing = some m) (hty : m.type = MUS_WAV) :
    (music_internal_volume volume s).wav_volume = volume := by
  obtain ⟨ty, f, a, b⟩ := m
  obtain ⟨ma, ml, mp, mv, msps, mh, hf, wa, wv, le⟩ := s
  cases hp
  cases hty
  rfl

/-- The halt dispatch preserves the loop counter, the hook registration,
the hook-invocation count and the master volume. -/
theorem music_internal_halt_fields (s : MusicState) :
    (music_internal_halt s).music_loops = s.music_loops ∧
    (music_internal_halt s).music_finished_hook = s.music_finished_hook ∧
    (music_internal_halt s).hooks_fired = s.hooks_fired ∧
    (music_internal_halt s).music_volume = s.music_volume ∧
    (music_internal_halt s).ms_per_step = s.ms_per_step := by
  obtain ⟨ma, ml, mp, mv, msps, mh, hf, wa, wv, le⟩ := s
  rcases mp with _ | ⟨ty2, f2, a2, b2⟩ <;> (try cases ty2) <;>
    exact ⟨rfl, rfl, rfl, rfl, rfl⟩

/-- Initialising the volume preserves the loop counter. -/
theorem music_internal_initialize_volume_loops (s : MusicState) :
    (music_internal_initialize_volume s).music_loops = s.music_loops := by
  obtain ⟨ma, ml, mp, mv, msps, mh, hf, wa, wv, le⟩ := s
  rcases mp with _ | ⟨ty2, f2, a2, b2⟩ <;> (try cases ty2) <;> (try cases f2) <;> rfl

/-- `music_internal_play` never changes the loop counter. -/
theorem music_internal_play_loops (music : Mix_Music) (position : Rat) (s : MusicState) :
    (music_internal_play music position s).2.music_loops = s.music_loops := by
  obtain ⟨ty, f, a, b⟩ := music
  obtain ⟨ma, ml, mp, mv, msps, mh, hf, wa, wv, le⟩ := s
  by_cases hpos : position > 0 <;>
    rcases mp with _ | ⟨ty2, f2, a2, b2⟩ <;>
    cases ty <;> (try cases ty2) <;>
    simp [music_internal_play, music_internal_halt, music_internal_initialize_volume,
      music_internal_volume, Mix_SetError, music_internal_position, hpos, apply_ite]

/-- The volume dispatch never changes the stored master volume. -/
theorem music_internal_volume_volume (volume : Int) (s : MusicState) :
    (music_internal_volume volume s).music_volume = s.music_volume := by
  obtain ⟨ma, ml, mp, mv, msps, mh, hf, wa, wv, le⟩ := s
  rcases mp with _ | ⟨ty2, f2, a2, b2⟩ <;> (try cases ty2) <;> rfl

/-- For a non-negative argument, `Mix_VolumeMusic` returns the previous
volume, stores the clamp of the argument and re-applies it through the
dispatch. -/
theorem Mix_VolumeMusic_nonneg (v : Int) (s : MusicState) (hv : 0 ≤ v) :
    Mix_VolumeMusic v s =
      (s.music_volume,
        music_internal_volume (min v SDL_MIX_MAXVOLUME)
          { s with music_volume := min v SDL_MIX_MAXVOLUME }) := by
  unfold Mix_VolumeMusic
  rw [if_neg (by omega)]
  have hclamp : (if v > SDL_MIX_MAXVOLUME then SDL_MIX_MAXVOLUME else v) =
      min v SDL_MIX_MAXVOLUME := by
    unfold SDL_MIX_MAXVOLUME
    split_ifs <;> omega
  rw [hclamp]
  cases hp : s.music_playing with
  | none => simp [hp, music_internal_volume]
  | some m => simp [hp]

/-- C7: `Mix_VolumeMusic` clamps the stored master volume to
`[0, SDL_MIX_MAXVOLUME]`; a negative argument is a pure query returning
the previous value with no mutation; a non-negative argument stores the
clamped volume and, when a track is active, immediately re-applies it
through the dispatch (for the WAV format, into the WAV stream volume). -/
theorem C7_volume_clamp_query (v : Int) (s : MusicState) :
    (v < 0 → Mix_VolumeMusic v s = (s.music_volume, s)) ∧
    (0 ≤ v →
      (Mix_VolumeMusic v s).1 = s.music_volume ∧
      (Mix_VolumeMusic v s).2.music_volume = min v SDL_MIX_MAXVOLUME ∧
      0 ≤ (Mix_VolumeMusic v s).2.music_volume ∧
      (Mix_VolumeMusic v s).2.music_volume ≤ SDL_MIX_MAXVOLUME ∧
      (Mix_VolumeMusic v s).2.music_playing = s.music_playing ∧
      (∀ m, s.music_playing = some m → m.type = MUS_WAV →
        (Mix_VolumeMusic v s).2.wav_volume = min v SDL_MIX_MAXVOLUME)) := by
  constructor
  · intro hv
    unfold Mix_VolumeMusic
    rw [if_pos hv]
  · intro hv
    rw [Mix_VolumeMusic_nonneg v s hv]
    have hmin : (({ s with music_volume := min v SDL_MIX_MAXVOLUME } :
        MusicState)).music_volume = min v SDL_MIX_MAXVOLUME := rfl
    refine ⟨rfl, ?_, ?_, ?_, ?_, ?_⟩
    · rw [music_internal_volume_volume, hmin]
    · rw [music_internal_volume_volume, hmin]
      unfold SDL_MIX_MAXVOLUME
      omega
    · rw [music_internal_volume_volume, hmin]
      unfold SDL_MIX_MAXVOLUME
      omega
    · rw [music_internal_volume_playing]
    · intro m hm hty
      exact music_internal_volume_wav _ _ m hm hty

/-- C7 witness: `SetVolume(-1)` on a playing session returns the prior
volume and mutates nothing; `SetVolume(200)` clamps to 128 and re-applies
it to the WAV stream. -/
theorem C7_volume_clamp_query_witness :
    Mix_VolumeMusic (-1) sampleState = (sampleState.music_volume, sampleState) ∧
    (Mix_VolumeMusic 200 sampleState).2.music_volume = min 200 SDL_MIX_MAXVOLUME ∧
    (Mix_VolumeMusic 200 sampleState).2.wav_volume = min 200 SDL_MIX_MAXVOLUME := by
  refine ⟨?_, ?_, ?_⟩
  · exact (C7_volume_clamp_query (-1) sampleState).1 (by decide)
  · exact ((C7_volume_clamp_query 200 sampleState).2 (by decide)).2.1
  · exact ((C7_volume_clamp_query 200 sampleState).2 (by decide)).2.2.2.2.2
      wavTrack (by decide) (by decide)

/-- C8: with the device open, `Mix_FadeOutMusic(ms)` for `ms <= 0`
degrades to an immediate `Mix_HaltMusic` (returning 1), and when a track
is active and the finished-notification is registered that halt fires the
notification exactly once. -/
theorem C8_fadeout_nonpositive_halts (ms : Int) (s : MusicState) (m : Mix_Music)
    (hms : ms ≤ 0) (hdev : s.ms_per_step ≠ 0)
    (hp : s.music_playing = some m) (hhook : s.music_finished_hook = true) :
    Mix_FadeOutMusic ms s = (1, (Mix_HaltMusic s).2) ∧
    (Mix_HaltMusic s).2.hooks_fired = s.hooks_fired + 1 := by
  constructor
  · unfold Mix_FadeOutMusic
    rw [if_neg hdev, if_pos hms]
  · unfold Mix_HaltMusic
    rw [hp]
    simp only []
    rw [if_pos (by rw [(music_internal_halt_fields s).2.1]; exact hhook)]
    simp only [(music_internal_halt_fields s).2.2.1]

/-- C8 witness: `FadeOutMusic(0)` on a playing session with the hook
registered halts immediately and fires the notification once. -/
theorem C8_fadeout_nonpositive_halts_witness :
    Mix_FadeOutMusic 0 sampleState = (1, (Mix_HaltMusic sampleState).2) ∧
    (Mix_HaltMusic sampleState).2.hooks_fired = sampleState.hooks_fired + 1 :=
  C8_fadeout_nonpositive_halts 0 sampleState wavTrack (by decide) (by decide)
    (by decide) (by decide)

/-- C5: with no fade-out wait pending, `Mix_FadeInMusicPos` with
`loop_count = 1` leaves the session in exactly the same state (and
returns the same value) as with `loop_count = 0`; and with the device
open, every `loop_count` other than 1 is stored in `music_loops`
unchanged. -/
theorem C5_loop_normalization (m : Mix_Music) (ms : Int) (position : Rat)
    (s : MusicState) (hwait : fadeOutInProgress s = false) :
    Mix_FadeInMusicPos (some m) 1 ms position s =
      Mix_FadeInMusicPos (some m) 0 ms position s ∧
    (∀ loops : Int, loops ≠ 1 → s.ms_per_step ≠ 0 →
      (Mix_FadeInMusicPos (some m) loops ms position s).2.music_loops = loops) := by
  constructor
  · have h1 : (if (1 : Int) = 1 then (0 : Int) else 1) = 0 := by norm_num
    have h0 : (if (0 : Int) = 1 then (0 : Int) else 0) = 0 := by norm_num
    unfold Mix_FadeInMusicPos
    simp
  · intro loops hloops hdev
    unfold Mix_FadeInMusicPos
    rw [if_neg hdev]
    simp only []
    rw [if_neg hloops]
    rw [music_internal_play_loops]

/-- C5 witness: playing with `loops = 1` equals playing with `loops = 0`
on an idle open session, and `loops = 5` is stored unchanged. -/
theorem C5_loop_normalization_witness :
    Mix_FadeInMusicPos (some wavTrack) 1 0 0 openIdleState =
      Mix_FadeInMusicPos (some wavTrack) 0 0 0 openIdleState ∧
    (Mix_FadeInMusicPos (some wavTrack) 5 0 0 openIdleState).2.music_loops = 5 := by
  have h := C5_loop_normalization wavTrack 0 0 openIdleState (by decide)
  exact ⟨h.1, h.2 5 (by decide) (by decide)⟩

/-- Starting a WAV track at a positive position always hits the
unimplemented seek: the play call fails with -1, deactivates the track
and reports "Position not implemented for music type". -/
theorem music_internal_play_seek_fails (music : Mix_Music) (position : Rat)
    (s : MusicState) (hwav : music.type = MUS_WAV) (hpos : 0 < position) :
    (music_internal_play music position s).1 = -1 ∧
    (music_internal_play music position s).2.music_playing = none ∧
    (music_internal_play music position s).2.last_error =
      "Position not implemented for music type" := by
  obtain ⟨ty, f, a, b⟩ := music
  subst hwav
  obtain ⟨ma, ml, mp, mv, msps, mh, hf, wa, wv, le⟩ := s
  rcases mp with _ | ⟨ty2, f2, a2, b2⟩ <;> (try cases ty2) <;> (try cases f) <;>
    simp [music_internal_play, music_internal_halt, music_internal_initialize_volume,
      music_internal_volume, Mix_SetError, music_internal_position, hpos, apply_ite]

/-- C1 counterexample: playing a WAV track at start position 1 on an open
idle session reports the seek error but also fails the play call
(returns -1) and leaves no track active — the call does not succeed and
the track does not stay active. -/
theorem C1_counterexample :
    (Mix_FadeInMusicPos (some wavTrack) 0 0 1 openIdleState).1 = -1 ∧
    (Mix_FadeInMusicPos (some wavTrack) 0 0 1 openIdleState).2.music_playing = none ∧
    (Mix_FadeInMusicPos (some wavTrack) 0 0 1 openIdleState).2.last_error =
      "Position not implemented for music type" := by
  refine ⟨?_, ?_, ?_⟩ <;> rfl

/-- C1 amended: for every play request with a positive start position on
a track whose format does not support seeking (no format in this excerpt
does), the play call reports the seek error AND fails: it returns -1 and
leaves no track active. -/
theorem C1_amended_seek_error_fails_play (m : Mix_Music) (loops ms : Int)
    (position : Rat) (s : MusicState)
    (hdev : s.ms_per_step ≠ 0) (hwav : m.type = MUS_WAV) (hpos : 0 < position)
    (hwait : fadeOutInProgress s = false) :
    (Mix_FadeInMusicPos (some m) loops ms position s).1 = -1 ∧
    (Mix_FadeInMusicPos (some m) loops ms position s).2.music_playing = none ∧
    (Mix_FadeInMusicPos (some m) loops ms position s).2.last_error =
      "Position not implemented for music type" := by
  unfold Mix_FadeInMusicPos
  rw [if_neg hdev]
  exact music_internal_play_seek_fails _ position _ hwav hpos

/-- C1 amended witness: a concrete seek-failing play on an open idle
session. -/
theorem C1_amended_seek_error_fails_play_witness :
    (Mix_FadeInMusicPos (some wavTrack) 3 24 2 openIdleState).1 = -1 ∧
    (Mix_FadeInMusicPos (some wavTrack) 3 24 2 openIdleState).2.music_playing = none ∧
    (Mix_FadeInMusicPos (some wavTrack) 3 24 2 openIdleState).2.last_error =
      "Position not implemented for music type" :=
  C1_amended_seek_error_fails_play wavTrack 3 24 2 openIdleState (by decide)
    (by decide) (by decide) (by decide)

/-- C3 counterexample: on a track fading out with `fade_step = 1` of
`fade_steps = 2` (`ms_per_step = 10`), `FadeOutMusic(25)` gives the new
total 3 and sets `fade_step` to `(1 * 3) / 2 = 1` by truncating integer
division, while the claimed formula `round(1 * 3 / 2) = 2`. -/
theorem C3_counterexample :
    ∃ m2, (Mix_FadeOutMusic 25 fadingOutState).2.music_playing = some m2 ∧
      m2.fade_step ≠ round ((1 * 3 : ℚ) / 2) := by
  refine ⟨{ type := MUS_WAV, fading := MIX_FADING_OUT, fade_step := 1,
            fade_steps := 3 }, by decide, ?_⟩
  have h : round ((1 * 3 : ℚ) / 2) = 2 := by norm_num [round_eq]
  rw [h]
  decide

/-- C3 amended: a `FadeOutMusic(ms)` with `ms > 0` issued while a fade is
in progress rescales with C truncating integer division, not rounding:
the new `fade_step` is `(elapsed * new_total) tdiv old_total` where
`elapsed` is `fade_step` when fading out and
`old_total - fade_step + 1` when fading in, the new total is
`(ms + ms_per_step - 1) tdiv ms_per_step`, and the fade state becomes
`MIX_FADING_OUT`. -/
theorem C3_amended_fadeout_rescale (ms : Int) (s : MusicState) (m : Mix_Music)
    (hdev : s.ms_per_step ≠ 0) (hms : 0 < ms)
    (hp : s.music_playing = some m) (hf : m.fading ≠ MIX_NO_FADING) :
    (Mix_FadeOutMusic ms s).1 = 1 ∧
    (Mix_FadeOutMusic ms s).2.music_playing = some
      { type := m.type, fading := MIX_FADING_OUT,
        fade_step := Int.tdiv
          ((if m.fading = MIX_FADING_OUT then m.fade_step
            else m.fade_steps - m.fade_step + 1) *
           Int.tdiv (ms + s.ms_per_step - 1) s.ms_per_step) m.fade_steps,
        fade_steps := Int.tdiv (ms + s.ms_per_step - 1) s.ms_per_step } := by
  unfold Mix_FadeOutMusic
  rw [if_neg hdev, if_neg (by omega)]
  simp only [hp]
  rw [if_neg hf]
  constructor <;> simp

/-- C3 amended witness: the counterexample state evaluated through the
amended formula: `fade_step` becomes `(1 * 3) tdiv 2 = 1`. -/
theorem C3_amended_fadeout_rescale_witness :
    (Mix_FadeOutMusic 25 fadingOutState).1 = 1 ∧
    (Mix_FadeOutMusic 25 fadingOutState).2.music_playing = some
      { type := MUS_WAV, fading := MIX_FADING_OUT,
        fade_step := Int.tdiv (1 * Int.tdiv (25 + 10 - 1) 10) 2,
        fade_steps := Int.tdiv (25 + 10 - 1) 10 } := by
  have h := C3_amended_fadeout_rescale 25 fadingOutState
    { type := MUS_WAV, fading := MIX_FADING_OUT, fade_step := 1, fade_steps := 2 }
    (by decide) (by decide) (by decide) (by decide)
  exact ⟨h.1, h.2⟩

/-- C9: when the dispatch reports the active (WAV) track not active
(natural end): with a nonzero loop counter, the counter is decremented
when positive and kept when negative, the track is restarted from
position 0 (the WAV stream is started again, its volume re-initialised to
the master volume) and its fade state after the restart equals the fade
state before it; with a zero loop counter, the track is halted and the
finished-notification fires. -/
theorem C9_halt_or_loop_spec (s : MusicState) (m : Mix_Music)
    (hp : s.music_playing = some m) (hwav : m.type = MUS_WAV)
    (hna : s.wav_active = false) (hhook : s.music_finished_hook = true) :
    (s.music_loops ≠ 0 →
      music_halt_or_loop s = some (1,
        { s with
            music_loops := if s.music_loops > 0 then s.music_loops - 1
                           else s.music_loops,
            music_playing := some m,
            wav_active := true,
            wav_volume := s.music_volume })) ∧
    (s.music_loops = 0 →
      music_halt_or_loop s = some (0,
        { s with music_playing := none, wav_active := false,
                 hooks_fired := s.hooks_fired + 1 })) := by
  obtain ⟨ty, f, a, b⟩ := m
  subst hwav
  obtain ⟨ma, ml, mp, mv, msps, mh, hf, wa, wv, le⟩ := s
  cases hp
  cases hna
  cases hhook
  constructor
  · intro h
    by_cases hml : (0 : Int) < ml <;>
      simp [music_halt_or_loop, music_internal_playing, music_internal_play,
        music_internal_halt, music_internal_initialize_volume,
        music_internal_volume, h, hml]
  · intro h
    cases h
    simp [music_halt_or_loop, music_internal_playing, music_internal_halt]

/-- C9 witness: two loops pending — the counter drops to 1, the WAV
stream restarts and the fade state is preserved; no loops pending — halt
with the notification fired once. -/
theorem C9_halt_or_loop_spec_witness :
    music_halt_or_loop loopPendingState = some (1,
      { loopPendingState with
          music_loops := (if loopPendingState.music_loops > 0 then
              loopPendingState.music_loops - 1 else loopPendingState.music_loops),
          music_playing := some wavTrack,
          wav_active := true,
          wav_volume := loopPendingState.music_volume }) ∧
    music_halt_or_loop loopDoneState = some (0,
      { loopDoneState with
          music_playing := none, wav_active := false,
          hooks_fired := loopDoneState.hooks_fired + 1 }) := by
  constructor
  · exact (C9_halt_or_loop_spec loopPendingState wavTrack (by decide) (by decide)
      (by decide) (by decide)).1 (by decide)
  · exact (C9_halt_or_loop_spec loopDoneState wavTrack (by decide) (by decide)
      (by decide) (by decide)).2 (by decide)
